import Mathlib

/-!
Favorite-list reconciliation of `routes/favoriteRouter.js`.

A shallow embedding of the five request handlers of the favorites router
(`GET /`, `POST /`, `DELETE /`, `POST /:favoriteId`, `DELETE /:favoriteId`)
together with the Mongoose operations they call, followed by the properties
of the favorite-set logic.

Conventions of the embedding:

* the `favorites` collection is a list of documents in natural order; queries
  by `user` return the first matching document, an upsert appends;
* a handler is a function from the request and the collection to a `World`
  recording the collection afterwards, the response that was sent, whether
  `next(err)` was reached, and the identifiers passed to `Campsite.findById`;
* identifiers arrive as the strings the client wrote; Mongoose casts them to
  `ObjectId`s before an update is sent, and a value that does not cast rejects
  the promise, which the handler's `.catch` hands to `next`;
* the middlewares in front of the handlers (`cors`, `authenticate.verifyUser`,
  `authenticate.verifyAdmin`) are transport concerns and are not embedded: a
  request that reaches a handler carries the authenticated `req.user._id`.
-/

namespace FavoriteRouter

/-! ## Data model -/

/-- Identifier of a user (`req.user._id`). -/
abbrev UserId := Nat

/-- A campsite `ObjectId`, represented by the string it prints as. -/
abbrev ObjectId := String

/-- Modelled from the spec: the document type of `models/favorite.js`, which is
not part of the sources at hand. One owner (`user`) and the collection of
campsite identifiers (`campsites`), stored as an array. -/
structure Favorite where
  user : UserId
  campsites : List ObjectId
deriving DecidableEq, Repr

/-- Modelled from the spec: a record of `models/campsite.js`; only its identifier
matters to the router, which tests the lookup result for presence. -/
structure Campsite where
  _id : ObjectId
deriving DecidableEq, Repr

/-- The `favorites` collection, in natural order. -/
abbrev Store := List Favorite

/-- One element of the JSON array posted to `/`: the handler reads its `_id`,
the identifier as the client wrote it. -/
structure Fav where
  _id : String
deriving DecidableEq, Repr

/-- The part of an Express request the handlers read. `params` holds the
bindings of the route pattern, looked up by name. -/
structure Request where
  user : UserId
  params : List (String × String)
  body : List Fav
deriving DecidableEq, Repr

/-- Payload of a response: `res.json(doc)`, `res.json(docs)` or `res.end(text)`. -/
inductive Body where
  | json (favorite : Favorite)
  | jsonAll (favorites : List Favorite)
  | text (message : String)
deriving DecidableEq, Repr

/-- What a handler writes to `res`. -/
structure Response where
  statusCode : Nat
  contentType : String
  body : Body
deriving DecidableEq, Repr

/-- Observable state while a handler runs. -/
structure World where
  store : Store
  sent : Option Response
  nextErr : Bool
  lookups : List ObjectId
deriving DecidableEq, Repr

/-- The state in which a handler starts on collection `store`. -/
def World.start (store : Store) : World :=
  { store := store, sent := none, nextErr := false, lookups := [] }

/-- Writing a response (`res.setHeader` followed by `res.end` or `res.json`).
Once a response has been sent, `res.setHeader` throws; inside the promise
chains the exception reaches `.catch((err) => next(err))`. -/
def World.respond (w : World) (r : Response) : World :=
  match w.sent with
  | none => { w with sent := some r }
  | some _ => { w with nextErr := true }

/-! ## Mongoose operations used by the router -/

/-- The update operator `$addToSet` with `$each`: every value is appended unless
the array already holds it; values are processed in order. -/
def addToSet (arr : List ObjectId) (vals : List ObjectId) : List ObjectId :=
  vals.foldl (fun acc v => if v ∈ acc then acc else acc ++ [v]) arr

/-- The query `Favorite.findOne({ user })`: first document of that user. -/
def Favorite.findOne (u : UserId) : Store → Option Favorite
  | [] => none
  | d :: ds => if d.user = u then some d else Favorite.findOne u ds

/-- Mongoose's cast of the values of an update against the schema of
`campsites`, applied before the update is sent: every value is cast to an
`ObjectId`; if one does not cast, a `CastError` is raised (`none`). -/
def castAll (cast : String → Option ObjectId) : List String → Option (List ObjectId)
  | [] => some []
  | s :: ss =>
    match cast s, castAll cast ss with
    | some o, some os => some (o :: os)
    | _, _ => none

/-- The call `Favorite.findOneAndUpdate({ user }, { $addToSet: { campsites: { $each: vals } } },
{ new: true, upsert: true })` once the values are cast: updates the first
document of the user, or inserts `{ user, campsites }` built from the query
and the update when there is none. Returns the document after the update and
the collection. -/
def Favorite.findOneAndUpdate (u : UserId) (vals : List ObjectId) : Store → Favorite × Store
  | [] =>
    let d : Favorite := { user := u, campsites := addToSet [] vals }
    (d, [d])
  | d :: ds =>
    if d.user = u then
      let d1 : Favorite := { d with campsites := addToSet d.campsites vals }
      (d1, d1 :: ds)
    else
      let r := Favorite.findOneAndUpdate u vals ds
      (r.1, d :: r.2)

/-- The call `Favorite.findOneAndDelete({ user })`: removes the first document of
the user and returns it, or returns nothing. -/
def Favorite.findOneAndDelete (u : UserId) : Store → Option Favorite × Store
  | [] => (none, [])
  | d :: ds =>
    if d.user = u then (some d, ds)
    else
      let r := Favorite.findOneAndDelete u ds
      (r.1, d :: r.2)

/-- The query `Favorite.find()`: every document. The two `populate` calls that
follow only expand references in the answer and do not write. -/
def Favorite.find (store : Store) : List Favorite := store

/-- The call `favorite.save()` on a document loaded by `Favorite.findOne({ user })`:
the stored document it was loaded from, the first one of that user, is
overwritten with the in-memory document. -/
def Favorite.save (favorite : Favorite) : Store → Store
  | [] => []
  | d :: ds => if d.user = favorite.user then favorite :: ds else d :: Favorite.save favorite ds

/-- The query `Campsite.findById(id)` on the campsite collection. -/
def Campsite.findById (campsites : List Campsite) (id : ObjectId) : Option Campsite :=
  campsites.find? (fun c => c._id == id)

/-- The check `mongoose.Types.ObjectId.isValid(v)`: `undefined` is never valid; a
string is valid when it can be cast to an `ObjectId`. The cast itself belongs
to the driver and is a parameter. -/
def isValid (cast : String → Option ObjectId) : Option String → Bool
  | none => false
  | some s => (cast s).isSome

/-! ## Values of JavaScript expressions -/

/-- The JavaScript values a filter callback of the router can return. -/
inductive JSValue where
  | undefined
  | bool (b : Bool)
deriving DecidableEq, Repr

/-- Truthiness, as `Array.prototype.filter` applies it to the callback result. -/
def JSValue.truthy : JSValue → Bool
  | .undefined => false
  | .bool b => b

/-- The method `ObjectId.prototype.equals` applied to the raw parameter. -/
def ObjectId.equals (a : ObjectId) (other : Option String) : Bool :=
  match other with
  | none => false
  | some s => a == s

/-! ## The handlers -/

/-- Handler `favoriteRouter.route('/').get`. -/
def favoriteRouter.root_get (_req : Request) (store : Store) : World :=
  let favorites := Favorite.find store
  (World.start store).respond
    { statusCode := 200, contentType := "application/json", body := .jsonAll favorites }

/-- Handler `favoriteRouter.route('/').post`. The posted identifiers are cast
by Mongoose inside `findOneAndUpdate`; a `CastError` rejects the promise
before anything is written, and `.catch((err) => next(err))` hands it on. -/
def favoriteRouter.root_post (cast : String → Option ObjectId) (req : Request) (store : Store) :
    World :=
  let campsiteIds := req.body.map (fun fav => fav._id)
  match castAll cast campsiteIds with
  | none => { World.start store with nextErr := true }
  | some oids =>
    let r := Favorite.findOneAndUpdate req.user oids store
    ({ World.start store with store := r.2 }).respond
      { statusCode := 200, contentType := "application/json", body := .json r.1 }

/-- Handler `favoriteRouter.route('/').delete`. -/
def favoriteRouter.root_delete (req : Request) (store : Store) : World :=
  let r := Favorite.findOneAndDelete req.user store
  let w : World := { World.start store with store := r.2 }
  match r.1 with
  | some response =>
    w.respond { statusCode := 200, contentType := "application/json", body := .json response }
  | none =>
    w.respond { statusCode := 200, contentType := "text/plain",
                body := .text "You do not have any favorites to delete" }

/-- First `.then` of `POST /:favoriteId`: receives the result of
`Campsite.findById`; answers 404 and passes `undefined` on when the campsite is
missing, otherwise passes on the user's favorite document. -/
def favoriteId_post.then1 (req : Request) (campsite : Option Campsite) (w : World) :
    Option Favorite × World :=
  match campsite with
  | none =>
    (none, w.respond { statusCode := 404, contentType := "text/plain",
                       body := .text "Campsite not found" })
  | some _ => (Favorite.findOne req.user w.store, w)

/-- Second `.then` of `POST /:favoriteId`: receives whatever the first one
returned. `campsiteId` is the raw parameter and `oid` its cast, which
Mongoose applies inside the update. -/
def favoriteId_post.then2 (req : Request) (campsiteId : String) (oid : ObjectId)
    (favorite : Option Favorite) (w : World) : Option Favorite × World :=
  if (match favorite with
      | some f => f.campsites.contains campsiteId
      | none => false) then
    (none, w.respond { statusCode := 200, contentType := "text/plain",
                       body := .text "Campsite is already in the list of favorites" })
  else
    let r := Favorite.findOneAndUpdate req.user [oid] w.store
    (some r.1, { w with store := r.2 })

/-- Third `.then` of `POST /:favoriteId`. -/
def favoriteId_post.then3 (favorite : Option Favorite) (w : World) : World :=
  match favorite with
  | some f => w.respond { statusCode := 200, contentType := "application/json", body := .json f }
  | none => w

/-- Handler `favoriteRouter.route('/:favoriteId').post`. The identifier is read
from `req.params.campsiteId`. -/
def favoriteRouter.favoriteId_post (cast : String → Option ObjectId) (campsites : List Campsite)
    (req : Request) (store : Store) : World :=
  let campsiteId := req.params.lookup "campsiteId"
  if !isValid cast campsiteId then
    (World.start store).respond
      { statusCode := 404, contentType := "text/plain", body := .text "Invalid campsite ID" }
  else
    -- past the check the parameter is a string that casts; the two `none`
    -- branches below cannot be taken
    match campsiteId with
    | none => World.start store
    | some c =>
      match cast c with
      | none => World.start store
      | some oid =>
        let w0 : World := { World.start store with lookups := [oid] }
        let s1 := favoriteId_post.then1 req (Campsite.findById campsites oid) w0
        if s1.2.nextErr then s1.2 else
        let s2 := favoriteId_post.then2 req c oid s1.1 s1.2
        if s2.2.nextErr then s2.2 else
        favoriteId_post.then3 s2.1 s2.2

/-- The callback given to `favorite.campsites.filter` in `DELETE /:favoriteId`:
its body is the expression statement `campsite._id.equals(campsiteId)` inside
braces, so the comparison is evaluated and the callback returns `undefined`. -/
def favoriteId_delete.callback (campsiteId : Option String) (campsite : ObjectId) : JSValue :=
  let _unused := ObjectId.equals campsite campsiteId
  JSValue.undefined

/-- Handler `favoriteRouter.route('/:favoriteId').delete`. -/
def favoriteRouter.favoriteId_delete (req : Request) (store : Store) : World :=
  let campsiteId := req.params.lookup "campsiteId"
  match Favorite.findOne req.user store with
  | some favorite =>
    let newFilteredFavs :=
      favorite.campsites.filter (fun campsite => (favoriteId_delete.callback campsiteId campsite).truthy)
    let favorite1 : Favorite := { favorite with campsites := newFilteredFavs }
    let w : World := { World.start store with store := Favorite.save favorite1 store }
    w.respond { statusCode := 200, contentType := "application/json", body := .json favorite1 }
  | none =>
    (World.start store).respond
      { statusCode := 404, contentType := "text/plain",
        body := .text "You do not have any favorites to delete" }

/-! ## The operations as the router exposes them -/

/-- Parameters Express binds for the pattern `'/:favoriteId'`: the path segment
is bound to the name `favoriteId`, and to no other name. -/
def routeParams (segment : String) : List (String × String) := [("favoriteId", segment)]

/-- Operation listFavorites: `GET /favorites`. -/
def listFavorites (u : UserId) (store : Store) : World :=
  favoriteRouter.root_get { user := u, params := [], body := [] } store

/-- Operation bulkAddFavorites: `POST /favorites` with one body element per identifier. -/
def bulkAddFavorites (cast : String → Option ObjectId) (u : UserId) (ids : List String)
    (store : Store) : World :=
  favoriteRouter.root_post cast { user := u, params := [], body := ids.map Fav.mk } store

/-- Operation removeAllFavorites: `DELETE /favorites`. -/
def removeAllFavorites (u : UserId) (store : Store) : World :=
  favoriteRouter.root_delete { user := u, params := [], body := [] } store

/-- Operation addSingleFavorite: `POST /favorites/<c>`. -/
def addSingleFavorite (cast : String → Option ObjectId) (campsites : List Campsite)
    (u : UserId) (c : String) (store : Store) : World :=
  favoriteRouter.favoriteId_post cast campsites { user := u, params := routeParams c, body := [] } store

/-- Operation removeSingleFavorite: `DELETE /favorites/<c>`. -/
def removeSingleFavorite (u : UserId) (c : String) (store : Store) : World :=
  favoriteRouter.favoriteId_delete { user := u, params := routeParams c, body := [] } store

/-- Hexadecimal digits, either case. -/
def isHexDigit (c : Char) : Bool :=
  c.isDigit || (97 ≤ c.toNat && c.toNat ≤ 102) || (65 ≤ c.toNat && c.toNat ≤ 70)

/-- The driver's cast for the 24-digit hexadecimal form of an identifier,
printed in lower case; used to evaluate the handlers on concrete requests. -/
def castHex (s : String) : Option ObjectId :=
  if s.data.length = 24 ∧ s.data.all isHexDigit then some (String.mk (s.data.map Char.toLower))
  else none

/-- Previous members of a user's list: the campsites of the user's document,
none when the user has no document. -/
def campsitesOf (u : UserId) (store : Store) : List ObjectId :=
  match Favorite.findOne u store with
  | some favorite => favorite.campsites
  | none => []

/-- Data-model invariant: no two documents have the same owner. -/
def OwnersUnique (store : Store) : Prop := (store.map (fun d => d.user)).Nodup

/-- Data-model invariant: no document lists a campsite twice. -/
def NoDuplicates (store : Store) : Prop := ∀ d ∈ store, d.campsites.Nodup

instance (store : Store) : Decidable (OwnersUnique store) := by
  unfold OwnersUnique; infer_instance

instance (store : Store) : Decidable (NoDuplicates store) := by
  unfold NoDuplicates; infer_instance

/-- The five operations, with their caller and arguments. -/
inductive Op where
  | listFavorites (u : UserId)
  | bulkAddFavorites (u : UserId) (ids : List String)
  | addSingleFavorite (u : UserId) (c : String)
  | removeAllFavorites (u : UserId)
  | removeSingleFavorite (u : UserId) (c : String)
deriving DecidableEq, Repr

/-- The calling user of an operation. -/
def Op.user : Op → UserId
  | .listFavorites u => u
  | .bulkAddFavorites u _ => u
  | .addSingleFavorite u _ => u
  | .removeAllFavorites u => u
  | .removeSingleFavorite u _ => u

/-- Whether the operation is one of the two adds. -/
def Op.isAdd : Op → Bool
  | .bulkAddFavorites _ _ => true
  | .addSingleFavorite _ _ => true
  | _ => false

/-- Running one operation on a collection. -/
def Op.run (cast : String → Option ObjectId) (campsites : List Campsite) : Op → Store → World
  | .listFavorites u, store => FavoriteRouter.listFavorites u store
  | .bulkAddFavorites u ids, store => FavoriteRouter.bulkAddFavorites cast u ids store
  | .addSingleFavorite u c, store => FavoriteRouter.addSingleFavorite cast campsites u c store
  | .removeAllFavorites u, store => FavoriteRouter.removeAllFavorites u store
  | .removeSingleFavorite u c, store => FavoriteRouter.removeSingleFavorite u c store

/-- Running a sequence of operations, each on the collection the previous one left. -/
def runAll (cast : String → Option ObjectId) (campsites : List Campsite) : List Op → Store → Store
  | [], store => store
  | op :: ops, store => runAll cast campsites ops (Op.run cast campsites op store).store

/-- The answer of `POST /:favoriteId` for a malformed identifier. -/
def invalidCampsiteId : Response :=
  { statusCode := 404, contentType := "text/plain", body := .text "Invalid campsite ID" }

/-- The ways one handler call by user `u` can change the collection: not at
all, by the upsert, by the deletion, or by saving the caller's document with
some of its campsites removed. -/
inductive Effect (u : UserId) (store : Store) : Store → Prop where
  | unchanged : Effect u store store
  | updated (vals : List ObjectId) : Effect u store (Favorite.findOneAndUpdate u vals store).2
  | deleted : Effect u store (Favorite.findOneAndDelete u store).2
  | saved (f : Favorite) (cs : List ObjectId) :
      Favorite.findOne u store = some f → List.Sublist cs f.campsites →
      Effect u store (Favorite.save { f with campsites := cs } store)

/-! ## Lemmas on the store operations -/

theorem castAll_some (cast : String → Option ObjectId) (ids : List String)
    (h : ∀ i ∈ ids, isValid cast (some i) = true) :
    ∃ oids, castAll cast ids = some oids ∧ ∀ x, x ∈ oids ↔ ∃ i ∈ ids, cast i = some x := by
  induction ids with
  | nil => exact ⟨[], rfl, by simp⟩
  | cons i is ih =>
    obtain ⟨os, hos, hmem⟩ := ih (fun j hj => h j (List.mem_cons_of_mem _ hj))
    have hi : (cast i).isSome = true := h i (List.mem_cons_self _ _)
    obtain ⟨o, ho⟩ := Option.isSome_iff_exists.mp hi
    refine ⟨o :: os, by simp [castAll, ho, hos], ?_⟩
    intro x
    simp only [List.mem_cons, hmem]
    constructor
    · rintro (hx | ⟨j, hj, hjx⟩)
      · exact ⟨i, Or.inl rfl, hx ▸ ho⟩
      · exact ⟨j, Or.inr hj, hjx⟩
    · rintro ⟨j, hj | hj, hjx⟩
      · subst hj
        rw [ho] at hjx
        exact Or.inl (Option.some.inj hjx).symm
      · exact Or.inr ⟨j, hj, hjx⟩

theorem castAll_none (cast : String → Option ObjectId) (ids : List String) (i : String)
    (hi : i ∈ ids) (hc : cast i = none) : castAll cast ids = none := by
  induction ids with
  | nil => simp at hi
  | cons j js ih =>
    rcases List.mem_cons.mp hi with hj | hj
    · subst hj
      simp [castAll, hc]
    · have := ih hj
      cases hcj : cast j <;> simp [castAll, hcj, this]

theorem map_id_map_mk (ids : List String) :
    List.map (fun fav : Fav => fav._id) (List.map Fav.mk ids) = ids := by
  simp [List.map_map, Function.comp_def]

/-- A posted identifier that does not cast: `POST /` hands the `CastError` to
`next`, sends nothing and writes nothing. -/
theorem bulkAddFavorites_cast_error (cast : String → Option ObjectId) (u : UserId)
    (ids : List String) (store : Store) (i : String) (hi : i ∈ ids) (hc : cast i = none) :
    bulkAddFavorites cast u ids store =
      { store := store, sent := none, nextErr := true, lookups := [] } := by
  simp only [bulkAddFavorites, favoriteRouter.root_post, map_id_map_mk,
    castAll_none cast ids i hi hc, World.start]

theorem bulkAddFavorites_cast_ok (cast : String → Option ObjectId) (u : UserId)
    (ids : List String) (store : Store) (oids : List ObjectId)
    (hcast : castAll cast ids = some oids) :
    bulkAddFavorites cast u ids store =
      { store := (Favorite.findOneAndUpdate u oids store).2,
        sent := some { statusCode := 200, contentType := "application/json",
                       body := .json (Favorite.findOneAndUpdate u oids store).1 },
        nextErr := false, lookups := [] } := by
  simp only [bulkAddFavorites, favoriteRouter.root_post, map_id_map_mk, hcast, World.respond,
    World.start]

theorem mem_addToSet (x : ObjectId) (vals arr : List ObjectId) :
    x ∈ addToSet arr vals ↔ x ∈ arr ∨ x ∈ vals := by
  unfold addToSet
  induction vals generalizing arr with
  | nil => simp
  | cons v vs ih =>
    rw [List.foldl_cons, ih]
    by_cases hv : v ∈ arr
    · simp only [hv, if_true, List.mem_cons]
      constructor
      · rintro (h | h)
        · exact Or.inl h
        · exact Or.inr (Or.inr h)
      · rintro (h | h | h)
        · exact Or.inl h
        · exact Or.inl (h ▸ hv)
        · exact Or.inr h
    · simp only [hv, if_false, List.mem_append, List.mem_singleton, List.mem_cons]
      tauto

theorem nodup_addToSet (vals arr : List ObjectId) (h : arr.Nodup) :
    (addToSet arr vals).Nodup := by
  unfold addToSet
  induction vals generalizing arr with
  | nil => simpa using h
  | cons v vs ih =>
    rw [List.foldl_cons]
    apply ih
    by_cases hv : v ∈ arr
    · simpa [hv] using h
    · simp only [hv, if_false]
      rw [List.nodup_append]
      refine ⟨h, List.nodup_singleton v, ?_⟩
      intro a ha hb
      rw [List.mem_singleton] at hb
      exact hv (hb ▸ ha)

theorem findOneAndUpdate_fst (u : UserId) (vals : List ObjectId) (store : Store) :
    (Favorite.findOneAndUpdate u vals store).1 =
      { user := u, campsites := addToSet (campsitesOf u store) vals } := by
  induction store with
  | nil => simp [Favorite.findOneAndUpdate, campsitesOf, Favorite.findOne]
  | cons d ds ih =>
    by_cases hd : d.user = u
    · simp [Favorite.findOneAndUpdate, campsitesOf, Favorite.findOne, hd]
    · simp only [Favorite.findOneAndUpdate, hd, if_false, ih]
      simp [campsitesOf, Favorite.findOne, hd]

theorem findOne_findOneAndUpdate_self (u : UserId) (vals : List ObjectId) (store : Store) :
    Favorite.findOne u (Favorite.findOneAndUpdate u vals store).2 =
      some (Favorite.findOneAndUpdate u vals store).1 := by
  induction store with
  | nil => simp [Favorite.findOneAndUpdate, Favorite.findOne]
  | cons d ds ih =>
    by_cases hd : d.user = u
    · simp [Favorite.findOneAndUpdate, Favorite.findOne, hd]
    · simp [Favorite.findOneAndUpdate, Favorite.findOne, hd, ih]

theorem findOne_findOneAndUpdate_other (u v : UserId) (huv : u ≠ v) (vals : List ObjectId)
    (store : Store) :
    Favorite.findOne v (Favorite.findOneAndUpdate u vals store).2 = Favorite.findOne v store := by
  induction store with
  | nil => simp [Favorite.findOneAndUpdate, Favorite.findOne, huv]
  | cons d ds ih =>
    by_cases hd : d.user = u
    · subst hd
      simp [Favorite.findOneAndUpdate, Favorite.findOne, huv]
    · by_cases hv : d.user = v
      · subst hv
        simp [Favorite.findOneAndUpdate, Favorite.findOne, hd]
      · simp [Favorite.findOneAndUpdate, Favorite.findOne, hd, hv, ih]

theorem findOne_user (u : UserId) (store : Store) (L : Favorite)
    (h : Favorite.findOne u store = some L) : L.user = u := by
  induction store with
  | nil => simp [Favorite.findOne] at h
  | cons d ds ih =>
    by_cases hd : d.user = u
    · simp [Favorite.findOne, hd] at h
      exact h ▸ hd
    · simp [Favorite.findOne, hd] at h
      exact ih h

theorem findOne_mem (u : UserId) (store : Store) (L : Favorite)
    (h : Favorite.findOne u store = some L) : L ∈ store := by
  induction store with
  | nil => simp [Favorite.findOne] at h
  | cons d ds ih =>
    by_cases hd : d.user = u
    · simp [Favorite.findOne, hd] at h
      simp [h]
    · simp [Favorite.findOne, hd] at h
      exact List.mem_cons_of_mem _ (ih h)

theorem findOne_eq_none_iff (u : UserId) (store : Store) :
    Favorite.findOne u store = none ↔ u ∉ store.map (fun d => d.user) := by
  induction store with
  | nil => simp [Favorite.findOne]
  | cons d ds ih =>
    by_cases hd : d.user = u
    · simp [Favorite.findOne, hd]
    · have hd2 : ¬ u = d.user := fun h => hd h.symm
      simp only [Favorite.findOne, hd, if_false, ih, List.map_cons, List.mem_cons, hd2, false_or]

theorem findOneAndDelete_fst (u : UserId) (store : Store) :
    (Favorite.findOneAndDelete u store).1 = Favorite.findOne u store := by
  induction store with
  | nil => simp [Favorite.findOneAndDelete, Favorite.findOne]
  | cons d ds ih =>
    by_cases hd : d.user = u
    · simp [Favorite.findOneAndDelete, Favorite.findOne, hd]
    · simp [Favorite.findOneAndDelete, Favorite.findOne, hd, ih]

theorem findOneAndDelete_none (u : UserId) (store : Store)
    (h : Favorite.findOne u store = none) : (Favorite.findOneAndDelete u store).2 = store := by
  induction store with
  | nil => simp [Favorite.findOneAndDelete]
  | cons d ds ih =>
    by_cases hd : d.user = u
    · simp [Favorite.findOne, hd] at h
    · simp [Favorite.findOne, hd] at h
      simp [Favorite.findOneAndDelete, hd, ih h]

theorem findOneAndDelete_sublist (u : UserId) (store : Store) :
    List.Sublist (Favorite.findOneAndDelete u store).2 store := by
  induction store with
  | nil => simp [Favorite.findOneAndDelete]
  | cons d ds ih =>
    by_cases hd : d.user = u
    · simp [Favorite.findOneAndDelete, hd]
    · simp only [Favorite.findOneAndDelete, hd, if_false]
      exact List.Sublist.cons₂ d ih

theorem findOne_findOneAndDelete_other (u v : UserId) (huv : u ≠ v) (store : Store) :
    Favorite.findOne v (Favorite.findOneAndDelete u store).2 = Favorite.findOne v store := by
  induction store with
  | nil => simp [Favorite.findOneAndDelete]
  | cons d ds ih =>
    by_cases hd : d.user = u
    · subst hd
      simp [Favorite.findOneAndDelete, Favorite.findOne, huv]
    · by_cases hv : d.user = v
      · subst hv
        simp [Favorite.findOneAndDelete, Favorite.findOne, hd]
      · simp [Favorite.findOneAndDelete, Favorite.findOne, hd, hv, ih]

theorem findOne_findOneAndDelete_self (u : UserId) (store : Store) (h : OwnersUnique store) :
    Favorite.findOne u (Favorite.findOneAndDelete u store).2 = none := by
  induction store with
  | nil => simp [Favorite.findOneAndDelete, Favorite.findOne]
  | cons d ds ih =>
    have hcons : d.user ∉ ds.map (fun d => d.user) ∧ OwnersUnique ds := by
      simpa [OwnersUnique, List.nodup_cons] using h
    by_cases hd : d.user = u
    · simp only [Favorite.findOneAndDelete, hd, if_true]
      rw [findOne_eq_none_iff]
      exact hd ▸ hcons.1
    · simp [Favorite.findOneAndDelete, Favorite.findOne, hd, ih hcons.2]

theorem favoriteId_post_effect (cast : String → Option ObjectId) (campsites : List Campsite)
    (req : Request) (store : Store) :
    Effect req.user store (favoriteRouter.favoriteId_post cast campsites req store).store := by
  unfold favoriteRouter.favoriteId_post
  cases hp : req.params.lookup "campsiteId" with
  | none =>
    simp only [isValid, Bool.not_false, if_true, World.respond, World.start]
    exact Effect.unchanged
  | some c =>
    cases hc : cast c with
    | none =>
      simp only [isValid, hc, Option.isSome_none, Bool.not_false, if_true, World.respond,
        World.start]
      exact Effect.unchanged
    | some oid =>
      simp only [isValid, hc, Option.isSome_some, Bool.not_true, World.start]
      cases Campsite.findById campsites oid with
      | none =>
        simp only [favoriteId_post.then1, favoriteId_post.then2, favoriteId_post.then3,
          World.respond]
        simp
        exact Effect.updated [oid]
      | some cs =>
        simp only [favoriteId_post.then1, favoriteId_post.then2, favoriteId_post.then3,
          World.respond]
        cases Favorite.findOne req.user store with
        | none =>
          simp
          exact Effect.updated [oid]
        | some f =>
          by_cases hin : c ∈ f.campsites
          · simp [hin]
            exact Effect.unchanged
          · simp [hin]
            exact Effect.updated [oid]

theorem favoriteId_delete_effect (req : Request) (store : Store) :
    Effect req.user store (favoriteRouter.favoriteId_delete req store).store := by
  unfold favoriteRouter.favoriteId_delete
  cases hf : Favorite.findOne req.user store with
  | none =>
    simp only [World.respond, World.start]
    exact Effect.unchanged
  | some f =>
    simp only [World.respond, World.start]
    exact Effect.saved f _ hf (List.filter_sublist _)

theorem root_post_effect (cast : String → Option ObjectId) (req : Request) (store : Store) :
    Effect req.user store (favoriteRouter.root_post cast req store).store := by
  unfold favoriteRouter.root_post
  cases h : castAll cast (req.body.map (fun fav => fav._id)) with
  | none =>
    simp only [h, World.start]
    exact Effect.unchanged
  | some oids =>
    simp only [h, World.respond, World.start]
    exact Effect.updated oids

theorem root_delete_effect (req : Request) (store : Store) :
    Effect req.user store (favoriteRouter.root_delete req store).store := by
  unfold favoriteRouter.root_delete
  cases h : (Favorite.findOneAndDelete req.user store).1 <;>
    simp only [h, World.respond, World.start] <;> exact Effect.deleted

theorem root_get_effect (req : Request) (store : Store) :
    Effect req.user store (favoriteRouter.root_get req store).store := by
  simp only [favoriteRouter.root_get, World.respond, World.start]
  exact Effect.unchanged

theorem Op.run_effect (cast : String → Option ObjectId) (campsites : List Campsite)
    (op : Op) (store : Store) : Effect op.user store (Op.run cast campsites op store).store := by
  cases op with
  | listFavorites u => exact root_get_effect ⟨u, [], []⟩ store
  | bulkAddFavorites u ids => exact root_post_effect cast ⟨u, [], ids.map Fav.mk⟩ store
  | addSingleFavorite u c => exact favoriteId_post_effect cast campsites ⟨u, routeParams c, []⟩ store
  | removeAllFavorites u => exact root_delete_effect ⟨u, [], []⟩ store
  | removeSingleFavorite u c => exact favoriteId_delete_effect ⟨u, routeParams c, []⟩ store

theorem findOneAndUpdate_owners (u : UserId) (vals : List ObjectId) (store : Store) :
    (Favorite.findOneAndUpdate u vals store).2.map (fun d => d.user) =
      if Favorite.findOne u store = none then store.map (fun d => d.user) ++ [u]
      else store.map (fun d => d.user) := by
  induction store with
  | nil => simp [Favorite.findOneAndUpdate, Favorite.findOne]
  | cons d ds ih =>
    by_cases hd : d.user = u
    · simp [Favorite.findOneAndUpdate, Favorite.findOne, hd]
    · simp only [Favorite.findOneAndUpdate, Favorite.findOne, hd, if_false, List.map_cons, ih]
      split_ifs <;> simp

theorem findOneAndUpdate_noDuplicates (u : UserId) (vals : List ObjectId) (store : Store)
    (h : NoDuplicates store) : NoDuplicates (Favorite.findOneAndUpdate u vals store).2 := by
  induction store with
  | nil =>
    intro d hd
    simp only [Favorite.findOneAndUpdate, List.mem_singleton] at hd
    subst hd
    exact nodup_addToSet vals [] List.nodup_nil
  | cons d ds ih =>
    have hds : NoDuplicates ds := fun x hx => h x (List.mem_cons_of_mem _ hx)
    have hd0 : d.campsites.Nodup := h d (List.mem_cons_self _ _)
    by_cases hd : d.user = u
    · intro x hx
      simp only [Favorite.findOneAndUpdate, hd, if_true, List.mem_cons] at hx
      rcases hx with hx | hx
      · subst hx
        exact nodup_addToSet vals _ hd0
      · exact hds x hx
    · intro x hx
      simp only [Favorite.findOneAndUpdate, hd, if_false, List.mem_cons] at hx
      rcases hx with hx | hx
      · subst hx
        exact hd0
      · exact ih hds x hx

theorem filter_findOneAndUpdate_other (u v : UserId) (huv : u ≠ v) (vals : List ObjectId)
    (store : Store) :
    (Favorite.findOneAndUpdate u vals store).2.filter (fun d => d.user = v) =
      store.filter (fun d => d.user = v) := by
  induction store with
  | nil => simp [Favorite.findOneAndUpdate, huv]
  | cons d ds ih =>
    by_cases hd : d.user = u
    · subst hd
      simp [Favorite.findOneAndUpdate, List.filter_cons, huv]
    · simp [Favorite.findOneAndUpdate, hd, List.filter_cons, ih]

theorem filter_findOneAndDelete_other (u v : UserId) (huv : u ≠ v) (store : Store) :
    (Favorite.findOneAndDelete u store).2.filter (fun d => d.user = v) =
      store.filter (fun d => d.user = v) := by
  induction store with
  | nil => simp [Favorite.findOneAndDelete]
  | cons d ds ih =>
    by_cases hd : d.user = u
    · subst hd
      simp [Favorite.findOneAndDelete, List.filter_cons, huv]
    · simp [Favorite.findOneAndDelete, hd, List.filter_cons, ih]

theorem save_owners (fav : Favorite) (store : Store) :
    (Favorite.save fav store).map (fun d => d.user) = store.map (fun d => d.user) := by
  induction store with
  | nil => simp [Favorite.save]
  | cons d ds ih =>
    by_cases hd : d.user = fav.user
    · simp [Favorite.save, hd]
    · simp [Favorite.save, hd, ih]

theorem save_mem (fav : Favorite) (store : Store) (x : Favorite)
    (hx : x ∈ Favorite.save fav store) : x = fav ∨ x ∈ store := by
  induction store with
  | nil => simp [Favorite.save] at hx
  | cons d ds ih =>
    by_cases hd : d.user = fav.user
    · simp only [Favorite.save, hd, if_true, List.mem_cons] at hx
      rcases hx with hx | hx
      · exact Or.inl hx
      · exact Or.inr (List.mem_cons_of_mem _ hx)
    · simp only [Favorite.save, hd, if_false, List.mem_cons] at hx
      rcases hx with hx | hx
      · exact Or.inr (hx ▸ List.mem_cons_self _ _)
      · rcases ih hx with h1 | h1
        · exact Or.inl h1
        · exact Or.inr (List.mem_cons_of_mem _ h1)

theorem findOne_save_other (fav : Favorite) (v : UserId) (hv : fav.user ≠ v) (store : Store) :
    Favorite.findOne v (Favorite.save fav store) = Favorite.findOne v store := by
  induction store with
  | nil => simp [Favorite.save]
  | cons d ds ih =>
    by_cases hd : d.user = fav.user
    · have hdv : ¬ d.user = v := fun h => hv (hd ▸ h)
      simp [Favorite.save, Favorite.findOne, hd, hv, hdv]
    · by_cases hdv : d.user = v
      · subst hdv
        simp [Favorite.save, Favorite.findOne, hd]
      · simp [Favorite.save, Favorite.findOne, hd, hdv, ih]

theorem filter_save_other (fav : Favorite) (v : UserId) (hv : fav.user ≠ v) (store : Store) :
    (Favorite.save fav store).filter (fun d => d.user = v) =
      store.filter (fun d => d.user = v) := by
  induction store with
  | nil => simp [Favorite.save]
  | cons d ds ih =>
    by_cases hd : d.user = fav.user
    · have hdv : ¬ d.user = v := fun h => hv (hd ▸ h)
      simp [Favorite.save, List.filter_cons, hd, hv, hdv]
    · simp [Favorite.save, List.filter_cons, hd, ih]

theorem Effect.ownersUnique {u : UserId} {s t : Store} (e : Effect u s t)
    (h : OwnersUnique s) : OwnersUnique t := by
  cases e with
  | unchanged => exact h
  | updated vals =>
    unfold OwnersUnique
    rw [findOneAndUpdate_owners]
    split_ifs with hn
    · rw [findOne_eq_none_iff] at hn
      rw [List.nodup_append]
      refine ⟨h, List.nodup_singleton u, ?_⟩
      intro a ha hb
      rw [List.mem_singleton] at hb
      exact hn (hb ▸ ha)
    · exact h
  | deleted =>
    exact List.Nodup.sublist ((findOneAndDelete_sublist u s).map _) h
  | saved f cs hf hcs =>
    unfold OwnersUnique
    rw [save_owners]
    exact h

theorem Effect.noDuplicates {u : UserId} {s t : Store} (e : Effect u s t)
    (h : NoDuplicates s) : NoDuplicates t := by
  cases e with
  | unchanged => exact h
  | updated vals => exact findOneAndUpdate_noDuplicates u vals s h
  | deleted => exact fun x hx => h x ((findOneAndDelete_sublist u s).subset hx)
  | saved f cs hf hcs =>
    intro x hx
    rcases save_mem _ s x hx with h1 | h1
    · subst h1
      exact List.Nodup.sublist hcs (h f (findOne_mem u s f hf))
    · exact h x h1

theorem Effect.frame {u v : UserId} {s t : Store} (e : Effect u s t) (huv : u ≠ v) :
    Favorite.findOne v t = Favorite.findOne v s ∧
    t.filter (fun d => d.user = v) = s.filter (fun d => d.user = v) := by
  cases e with
  | unchanged => exact ⟨rfl, rfl⟩
  | updated vals =>
    exact ⟨findOne_findOneAndUpdate_other u v huv vals s, filter_findOneAndUpdate_other u v huv vals s⟩
  | deleted =>
    exact ⟨findOne_findOneAndDelete_other u v huv s, filter_findOneAndDelete_other u v huv s⟩
  | saved f cs hf hcs =>
    have hu : f.user = u := findOne_user u s f hf
    have hne : ({ f with campsites := cs } : Favorite).user ≠ v := by
      simpa [hu] using huv
    exact ⟨findOne_save_other _ v hne s, filter_save_other _ v hne s⟩

theorem Effect.grows {u : UserId} {s t : Store} (e : Effect u s t)
    (hlt : s.length < t.length) :
    Favorite.findOne u s = none ∧ ∃ vals, t = (Favorite.findOneAndUpdate u vals s).2 := by
  cases e with
  | unchanged => exact absurd hlt (lt_irrefl _)
  | updated vals =>
    refine ⟨?_, vals, rfl⟩
    by_contra hn
    have hlen := congrArg List.length (findOneAndUpdate_owners u vals s)
    simp only [hn, if_false, List.length_map] at hlen
    omega
  | deleted =>
    have := (findOneAndDelete_sublist u s).length_le
    omega
  | saved f cs hf hcs =>
    have hlen := congrArg List.length (save_owners { f with campsites := cs } s)
    simp only [List.length_map] at hlen
    omega

theorem save_length (fav : Favorite) (store : Store) :
    (Favorite.save fav store).length = store.length := by
  have h := congrArg List.length (save_owners fav store)
  simpa only [List.length_map] using h

theorem root_delete_length (req : Request) (store : Store) :
    (favoriteRouter.root_delete req store).store.length ≤ store.length := by
  unfold favoriteRouter.root_delete
  cases h : (Favorite.findOneAndDelete req.user store).1 <;>
    simp only [h, World.respond, World.start] <;>
    exact (findOneAndDelete_sublist req.user store).length_le

theorem favoriteId_delete_length (req : Request) (store : Store) :
    (favoriteRouter.favoriteId_delete req store).store.length = store.length := by
  unfold favoriteRouter.favoriteId_delete
  cases hf : Favorite.findOne req.user store with
  | none => simp only [World.respond, World.start]
  | some f =>
    simp only [World.respond, World.start]
    exact save_length _ store

/-- With a document `L` for the caller, `DELETE /:favoriteId` stores and
returns `L` with an empty `campsites` array, whatever the request parameters. -/
theorem favoriteId_delete_found (req : Request) (store : Store) (L : Favorite)
    (h : Favorite.findOne req.user store = some L) :
    favoriteRouter.favoriteId_delete req store =
      { store := Favorite.save { L with campsites := [] } store,
        sent := some { statusCode := 200, contentType := "application/json",
                       body := .json { L with campsites := [] } },
        nextErr := false, lookups := [] } := by
  simp [favoriteRouter.favoriteId_delete, h, World.respond, World.start,
    favoriteId_delete.callback, JSValue.truthy]

/-! ### The body of `POST /:favoriteId` on a request that binds `campsiteId`

The route pattern never produces such a request; the three lemmas record what
the promise chain does with one. -/

theorem favoriteId_post_bound_added (cast : String → Option ObjectId)
    (campsites : List Campsite) (req : Request) (store : Store) (c : String) (oid : ObjectId)
    (found : Campsite)
    (hp : req.params.lookup "campsiteId" = some c) (hc : cast c = some oid)
    (hex : Campsite.findById campsites oid = some found)
    (hnot : c ∉ campsitesOf req.user store) :
    favoriteRouter.favoriteId_post cast campsites req store =
      { store := (Favorite.findOneAndUpdate req.user [oid] store).2,
        sent := some { statusCode := 200, contentType := "application/json",
                       body := .json (Favorite.findOneAndUpdate req.user [oid] store).1 },
        nextErr := false, lookups := [oid] } := by
  unfold campsitesOf at hnot
  unfold favoriteRouter.favoriteId_post
  simp only [hp, isValid, hc, Option.isSome_some, Bool.not_true, World.start, hex,
    favoriteId_post.then1, favoriteId_post.then2, favoriteId_post.then3, World.respond]
  cases hf : Favorite.findOne req.user store with
  | none => simp
  | some f =>
    rw [hf] at hnot
    simp [hnot]

theorem favoriteId_post_bound_already (cast : String → Option ObjectId)
    (campsites : List Campsite) (req : Request) (store : Store) (c : String) (oid : ObjectId)
    (found : Campsite)
    (hp : req.params.lookup "campsiteId" = some c) (hc : cast c = some oid)
    (hex : Campsite.findById campsites oid = some found)
    (hin : c ∈ campsitesOf req.user store) :
    favoriteRouter.favoriteId_post cast campsites req store =
      { store := store,
        sent := some { statusCode := 200, contentType := "text/plain",
                       body := .text "Campsite is already in the list of favorites" },
        nextErr := false, lookups := [oid] } := by
  unfold campsitesOf at hin
  unfold favoriteRouter.favoriteId_post
  simp only [hp, isValid, hc, Option.isSome_some, Bool.not_true, World.start, hex,
    favoriteId_post.then1, favoriteId_post.then2, favoriteId_post.then3, World.respond]
  cases hf : Favorite.findOne req.user store with
  | none => rw [hf] at hin; simp at hin
  | some f =>
    rw [hf] at hin
    simp [hin]

theorem favoriteId_post_bound_not_found (cast : String → Option ObjectId)
    (campsites : List Campsite) (req : Request) (store : Store) (c : String) (oid : ObjectId)
    (hp : req.params.lookup "campsiteId" = some c) (hc : cast c = some oid)
    (hex : Campsite.findById campsites oid = none) :
    favoriteRouter.favoriteId_post cast campsites req store =
      { store := (Favorite.findOneAndUpdate req.user [oid] store).2,
        sent := some { statusCode := 404, contentType := "text/plain",
                       body := .text "Campsite not found" },
        nextErr := true, lookups := [oid] } := by
  unfold favoriteRouter.favoriteId_post
  simp [hp, isValid, hc, World.start, hex,
    favoriteId_post.then1, favoriteId_post.then2, favoriteId_post.then3, World.respond]

/-! ## Properties of the handlers -/

/-- C1. bulkAddFavorites is a set union: when every posted value is a
well-formed campsite identifier and the caller's document (if any) lists no
campsite twice, the call answers 200 with a document owned by the caller,
that document is the one stored for the caller afterwards, its members are
exactly the previous members together with the identifiers posted (each as
the `ObjectId` it is cast to), and it lists no identifier twice. -/
theorem bulkAddFavorites_union (cast : String → Option ObjectId) (u : UserId)
    (ids : List String) (store : Store)
    (hids : ∀ i ∈ ids, isValid cast (some i) = true)
    (h : ∀ L, Favorite.findOne u store = some L → L.campsites.Nodup) :
    ∃ fav : Favorite,
      (bulkAddFavorites cast u ids store).sent =
          some { statusCode := 200, contentType := "application/json", body := .json fav } ∧
      (bulkAddFavorites cast u ids store).nextErr = false ∧
      Favorite.findOne u (bulkAddFavorites cast u ids store).store = some fav ∧
      fav.user = u ∧
      (∀ x, x ∈ fav.campsites ↔ x ∈ campsitesOf u store ∨ ∃ i ∈ ids, cast i = some x) ∧
      fav.campsites.Nodup := by
  obtain ⟨oids, hcast, hmem⟩ := castAll_some cast ids hids
  rw [bulkAddFavorites_cast_ok cast u ids store oids hcast]
  refine ⟨(Favorite.findOneAndUpdate u oids store).1, rfl, rfl, ?_, ?_, ?_, ?_⟩
  · exact findOne_findOneAndUpdate_self u oids store
  · rw [findOneAndUpdate_fst]
  · intro x
    rw [findOneAndUpdate_fst]
    simp only [mem_addToSet, hmem]
  · rw [findOneAndUpdate_fst]
    apply nodup_addToSet
    unfold campsitesOf
    cases hL : Favorite.findOne u store with
    | none => exact List.nodup_nil
    | some L => exact h L hL

/-- Witness for C1: user 1 already lists two campsites and posts three values,
two spellings of one identifier and one identifier already listed. -/
theorem bulkAddFavorites_union_witness :
    (∀ i ∈ ["5f1a2b3c4d5e6f7a8b9c0d1a", "5F1A2B3C4D5E6F7A8B9C0D1A", "5f1a2b3c4d5e6f7a8b9c0d1b"],
      isValid castHex (some i) = true) ∧
    (∀ L, Favorite.findOne 1 [⟨2, ["5f1a2b3c4d5e6f7a8b9c0d1f"]⟩, ⟨1, ["5f1a2b3c4d5e6f7a8b9c0d1b", "5f1a2b3c4d5e6f7a8b9c0d1c"]⟩] = some L → L.campsites.Nodup) ∧
    ∃ fav : Favorite,
      (bulkAddFavorites castHex 1 ["5f1a2b3c4d5e6f7a8b9c0d1a", "5F1A2B3C4D5E6F7A8B9C0D1A", "5f1a2b3c4d5e6f7a8b9c0d1b"]
        [⟨2, ["5f1a2b3c4d5e6f7a8b9c0d1f"]⟩, ⟨1, ["5f1a2b3c4d5e6f7a8b9c0d1b", "5f1a2b3c4d5e6f7a8b9c0d1c"]⟩]).sent =
          some { statusCode := 200, contentType := "application/json", body := .json fav } ∧
      (bulkAddFavorites castHex 1 ["5f1a2b3c4d5e6f7a8b9c0d1a", "5F1A2B3C4D5E6F7A8B9C0D1A", "5f1a2b3c4d5e6f7a8b9c0d1b"]
        [⟨2, ["5f1a2b3c4d5e6f7a8b9c0d1f"]⟩, ⟨1, ["5f1a2b3c4d5e6f7a8b9c0d1b", "5f1a2b3c4d5e6f7a8b9c0d1c"]⟩]).nextErr = false ∧
      Favorite.findOne 1 (bulkAddFavorites castHex 1 ["5f1a2b3c4d5e6f7a8b9c0d1a", "5F1A2B3C4D5E6F7A8B9C0D1A", "5f1a2b3c4d5e6f7a8b9c0d1b"]
        [⟨2, ["5f1a2b3c4d5e6f7a8b9c0d1f"]⟩, ⟨1, ["5f1a2b3c4d5e6f7a8b9c0d1b", "5f1a2b3c4d5e6f7a8b9c0d1c"]⟩]).store = some fav ∧
      fav.user = 1 ∧
      (∀ x, x ∈ fav.campsites ↔
        x ∈ campsitesOf 1 [⟨2, ["5f1a2b3c4d5e6f7a8b9c0d1f"]⟩, ⟨1, ["5f1a2b3c4d5e6f7a8b9c0d1b", "5f1a2b3c4d5e6f7a8b9c0d1c"]⟩] ∨
        ∃ i ∈ ["5f1a2b3c4d5e6f7a8b9c0d1a", "5F1A2B3C4D5E6F7A8B9C0D1A", "5f1a2b3c4d5e6f7a8b9c0d1b"],
          castHex i = some x) ∧
      fav.campsites.Nodup :=
  ⟨by decide,
   by intro L hL; simp [Favorite.findOne] at hL; subst hL; decide,
   bulkAddFavorites_union castHex 1 ["5f1a2b3c4d5e6f7a8b9c0d1a", "5F1A2B3C4D5E6F7A8B9C0D1A", "5f1a2b3c4d5e6f7a8b9c0d1b"]
     [⟨2, ["5f1a2b3c4d5e6f7a8b9c0d1f"]⟩, ⟨1, ["5f1a2b3c4d5e6f7a8b9c0d1b", "5f1a2b3c4d5e6f7a8b9c0d1c"]⟩]
     (by decide)
     (by intro L hL; simp [Favorite.findOne] at hL; subst hL; decide)⟩

/-- A request in which `campsiteId` is unbound or does not cast is answered
with `Invalid campsite ID` before any lookup or write. -/
theorem favoriteId_post_invalid (cast : String → Option ObjectId) (campsites : List Campsite)
    (req : Request) (store : Store) (h : isValid cast (req.params.lookup "campsiteId") = false) :
    favoriteRouter.favoriteId_post cast campsites req store =
      { store := store, sent := some invalidCampsiteId, nextErr := false, lookups := [] } := by
  simp [favoriteRouter.favoriteId_post, h, World.respond, World.start, invalidCampsiteId]

/-- The route pattern binds `favoriteId`, so the handler of `POST /:favoriteId`
finds `campsiteId` unbound whatever the path segment is. -/
theorem addSingleFavorite_eq (cast : String → Option ObjectId) (campsites : List Campsite)
    (u : UserId) (c : String) (store : Store) :
    addSingleFavorite cast campsites u c store =
      { store := store, sent := some invalidCampsiteId, nextErr := false, lookups := [] } := by
  unfold addSingleFavorite
  apply favoriteId_post_invalid
  simp [routeParams, List.lookup, isValid]

/-- C6. addSingleFavorite rejects a malformed identifier up front: when the
identifier fails format validation the answer is 404 `Invalid campsite ID`,
`Campsite.findById` is not called and the collection is unchanged. -/
theorem addSingleFavorite_malformed (cast : String → Option ObjectId) (campsites : List Campsite)
    (u : UserId) (c : String) (store : Store) (_h : isValid cast (some c) = false) :
    (addSingleFavorite cast campsites u c store).sent =
        some { statusCode := 404, contentType := "text/plain", body := .text "Invalid campsite ID" } ∧
    (addSingleFavorite cast campsites u c store).nextErr = false ∧
    (addSingleFavorite cast campsites u c store).lookups = [] ∧
    (addSingleFavorite cast campsites u c store).store = store := by
  rw [addSingleFavorite_eq]
  exact ⟨rfl, rfl, rfl, rfl⟩

/-- Witness for C6: `bogus-id` does not cast. -/
theorem addSingleFavorite_malformed_witness :
    isValid castHex (some "bogus-id") = false ∧
    (addSingleFavorite castHex [⟨"5f1a2b3c4d5e6f7a8b9c0d1e"⟩] 1 "bogus-id" [⟨1, ["x"]⟩]).sent =
        some { statusCode := 404, contentType := "text/plain", body := .text "Invalid campsite ID" } ∧
    (addSingleFavorite castHex [⟨"5f1a2b3c4d5e6f7a8b9c0d1e"⟩] 1 "bogus-id" [⟨1, ["x"]⟩]).nextErr
        = false ∧
    (addSingleFavorite castHex [⟨"5f1a2b3c4d5e6f7a8b9c0d1e"⟩] 1 "bogus-id" [⟨1, ["x"]⟩]).lookups
        = [] ∧
    (addSingleFavorite castHex [⟨"5f1a2b3c4d5e6f7a8b9c0d1e"⟩] 1 "bogus-id" [⟨1, ["x"]⟩]).store
        = [⟨1, ["x"]⟩] :=
  ⟨by decide,
   addSingleFavorite_malformed castHex [⟨"5f1a2b3c4d5e6f7a8b9c0d1e"⟩] 1 "bogus-id" [⟨1, ["x"]⟩]
     (by decide)⟩

/-- C7. removeAllFavorites deletes the caller's document and never fails on
absence: on a collection with at most one document per owner, a caller who
has document `L` gets `L` back with status 200 and has no document
afterwards; a caller without a document gets status 200 with the text
`You do not have any favorites to delete` and the collection is unchanged. -/
theorem removeAllFavorites_deletes (u : UserId) (store : Store) (h : OwnersUnique store) :
    (∀ L, Favorite.findOne u store = some L →
      (removeAllFavorites u store).sent =
          some { statusCode := 200, contentType := "application/json", body := .json L } ∧
      (removeAllFavorites u store).nextErr = false ∧
      Favorite.findOne u (removeAllFavorites u store).store = none) ∧
    (Favorite.findOne u store = none →
      (removeAllFavorites u store).sent =
          some { statusCode := 200, contentType := "text/plain",
                 body := .text "You do not have any favorites to delete" } ∧
      (removeAllFavorites u store).nextErr = false ∧
      (removeAllFavorites u store).store = store) := by
  constructor
  · intro L hL
    have h1 : (Favorite.findOneAndDelete u store).1 = some L := by
      rw [findOneAndDelete_fst, hL]
    refine ⟨?_, ?_, ?_⟩
    · simp [removeAllFavorites, favoriteRouter.root_delete, h1, World.respond, World.start]
    · simp [removeAllFavorites, favoriteRouter.root_delete, h1, World.respond, World.start]
    · simp only [removeAllFavorites, favoriteRouter.root_delete, h1, World.respond, World.start]
      exact findOne_findOneAndDelete_self u store h
  · intro hN
    have h1 : (Favorite.findOneAndDelete u store).1 = none := by
      rw [findOneAndDelete_fst, hN]
    refine ⟨?_, ?_, ?_⟩
    · simp [removeAllFavorites, favoriteRouter.root_delete, h1, World.respond, World.start]
    · simp [removeAllFavorites, favoriteRouter.root_delete, h1, World.respond, World.start]
    · simp only [removeAllFavorites, favoriteRouter.root_delete, h1, World.respond, World.start]
      exact findOneAndDelete_none u store hN

/-- Witness for C7: users 2 and 1 each own one document. -/
theorem removeAllFavorites_deletes_witness :
    OwnersUnique [⟨2, ["x"]⟩, ⟨1, ["b", "c"]⟩] ∧
    ((∀ L, Favorite.findOne 1 [⟨2, ["x"]⟩, ⟨1, ["b", "c"]⟩] = some L →
      (removeAllFavorites 1 [⟨2, ["x"]⟩, ⟨1, ["b", "c"]⟩]).sent =
          some { statusCode := 200, contentType := "application/json", body := .json L } ∧
      (removeAllFavorites 1 [⟨2, ["x"]⟩, ⟨1, ["b", "c"]⟩]).nextErr = false ∧
      Favorite.findOne 1 (removeAllFavorites 1 [⟨2, ["x"]⟩, ⟨1, ["b", "c"]⟩]).store = none) ∧
    (Favorite.findOne 1 [⟨2, ["x"]⟩, ⟨1, ["b", "c"]⟩] = none →
      (removeAllFavorites 1 [⟨2, ["x"]⟩, ⟨1, ["b", "c"]⟩]).sent =
          some { statusCode := 200, contentType := "text/plain",
                 body := .text "You do not have any favorites to delete" } ∧
      (removeAllFavorites 1 [⟨2, ["x"]⟩, ⟨1, ["b", "c"]⟩]).nextErr = false ∧
      (removeAllFavorites 1 [⟨2, ["x"]⟩, ⟨1, ["b", "c"]⟩]).store
        = [⟨2, ["x"]⟩, ⟨1, ["b", "c"]⟩])) :=
  ⟨by decide, removeAllFavorites_deletes 1 [⟨2, ["x"]⟩, ⟨1, ["b", "c"]⟩] (by decide)⟩

/-- C8. At most one document per owner is an invariant of every sequence of
operations: from a collection in which no two documents have the same owner,
any sequence of listFavorites, bulkAddFavorites, addSingleFavorite,
removeAllFavorites and removeSingleFavorite calls leaves such a collection;
and whenever one operation makes the collection longer, that operation is an
add whose caller had no document. -/
theorem ownersUnique_runAll (cast : String → Option ObjectId) (campsites : List Campsite)
    (ops : List Op) (store : Store) (h : OwnersUnique store) :
    OwnersUnique (runAll cast campsites ops store) ∧
    ∀ (op : Op) (s : Store), s.length < (Op.run cast campsites op s).store.length →
      op.isAdd = true ∧ Favorite.findOne op.user s = none := by
  constructor
  · induction ops generalizing store with
    | nil => exact h
    | cons op ops ih =>
      exact ih _ ((Op.run_effect cast campsites op store).ownersUnique h)
  · intro op s hlt
    have hnone := ((Op.run_effect cast campsites op s).grows hlt).1
    refine ⟨?_, hnone⟩
    cases op with
    | listFavorites u =>
      have h0 : (Op.run cast campsites (Op.listFavorites u) s).store = s := by
        simp [Op.run, listFavorites, favoriteRouter.root_get, World.respond, World.start]
      rw [h0] at hlt
      exact absurd hlt (lt_irrefl _)
    | bulkAddFavorites u ids => rfl
    | addSingleFavorite u c => rfl
    | removeAllFavorites u =>
      have h0 := root_delete_length ⟨u, [], []⟩ s
      have h1 : (Op.run cast campsites (Op.removeAllFavorites u) s).store =
          (favoriteRouter.root_delete ⟨u, [], []⟩ s).store := rfl
      rw [h1] at hlt
      omega
    | removeSingleFavorite u c =>
      have h0 := favoriteId_delete_length ⟨u, routeParams c, []⟩ s
      have h1 : (Op.run cast campsites (Op.removeSingleFavorite u c) s).store =
          (favoriteRouter.favoriteId_delete ⟨u, routeParams c, []⟩ s).store := rfl
      rw [h1] at hlt
      omega

/-- Witness for C8: two users, five calls. -/
theorem ownersUnique_runAll_witness :
    OwnersUnique [⟨2, ["5f1a2b3c4d5e6f7a8b9c0d1f"]⟩,
         ⟨1, ["5f1a2b3c4d5e6f7a8b9c0d1b", "5f1a2b3c4d5e6f7a8b9c0d1c"]⟩] ∧
    (OwnersUnique (runAll castHex [⟨"5f1a2b3c4d5e6f7a8b9c0d1e"⟩]
        [.bulkAddFavorites 3 ["5f1a2b3c4d5e6f7a8b9c0d1a", "5F1A2B3C4D5E6F7A8B9C0D1A"],
         .removeSingleFavorite 1 "5f1a2b3c4d5e6f7a8b9c0d1b", .removeAllFavorites 2,
         .addSingleFavorite 2 "5f1a2b3c4d5e6f7a8b9c0d1e", .listFavorites 1]
        [⟨2, ["5f1a2b3c4d5e6f7a8b9c0d1f"]⟩,
         ⟨1, ["5f1a2b3c4d5e6f7a8b9c0d1b", "5f1a2b3c4d5e6f7a8b9c0d1c"]⟩]) ∧
     ∀ (op : Op) (s : Store),
      s.length < (Op.run castHex [⟨"5f1a2b3c4d5e6f7a8b9c0d1e"⟩] op s).store.length →
      op.isAdd = true ∧ Favorite.findOne op.user s = none) :=
  ⟨by decide,
   ownersUnique_runAll castHex [⟨"5f1a2b3c4d5e6f7a8b9c0d1e"⟩]
        [.bulkAddFavorites 3 ["5f1a2b3c4d5e6f7a8b9c0d1a", "5F1A2B3C4D5E6F7A8B9C0D1A"],
         .removeSingleFavorite 1 "5f1a2b3c4d5e6f7a8b9c0d1b", .removeAllFavorites 2,
         .addSingleFavorite 2 "5f1a2b3c4d5e6f7a8b9c0d1e", .listFavorites 1]
        [⟨2, ["5f1a2b3c4d5e6f7a8b9c0d1f"]⟩,
         ⟨1, ["5f1a2b3c4d5e6f7a8b9c0d1b", "5f1a2b3c4d5e6f7a8b9c0d1c"]⟩] (by decide)⟩

/-- C9. No-duplicates is preserved by every operation: if no document of the
collection lists a campsite twice, then after any one operation (any caller,
any arguments, repeats in the posted identifiers included) no document
does. -/
theorem noDuplicates_preserved (cast : String → Option ObjectId) (campsites : List Campsite)
    (op : Op) (store : Store) (h : NoDuplicates store) :
    NoDuplicates (Op.run cast campsites op store).store :=
  (Op.run_effect cast campsites op store).noDuplicates h

/-- Witness for C9: a bulk add with repeats that overlaps the stored array. -/
theorem noDuplicates_preserved_witness :
    NoDuplicates [⟨2, ["5f1a2b3c4d5e6f7a8b9c0d1f"]⟩,
         ⟨1, ["5f1a2b3c4d5e6f7a8b9c0d1b", "5f1a2b3c4d5e6f7a8b9c0d1c"]⟩] ∧
    NoDuplicates (Op.run castHex [] (.bulkAddFavorites 1
        ["5f1a2b3c4d5e6f7a8b9c0d1a", "5f1a2b3c4d5e6f7a8b9c0d1c", "5F1A2B3C4D5E6F7A8B9C0D1A"])
        [⟨2, ["5f1a2b3c4d5e6f7a8b9c0d1f"]⟩,
         ⟨1, ["5f1a2b3c4d5e6f7a8b9c0d1b", "5f1a2b3c4d5e6f7a8b9c0d1c"]⟩]).store :=
  ⟨by decide,
   noDuplicates_preserved castHex [] (.bulkAddFavorites 1
        ["5f1a2b3c4d5e6f7a8b9c0d1a", "5f1a2b3c4d5e6f7a8b9c0d1c", "5F1A2B3C4D5E6F7A8B9C0D1A"])
        [⟨2, ["5f1a2b3c4d5e6f7a8b9c0d1f"]⟩,
         ⟨1, ["5f1a2b3c4d5e6f7a8b9c0d1b", "5f1a2b3c4d5e6f7a8b9c0d1c"]⟩] (by decide)⟩

/-- C10. Operations are framed to the calling user: an operation called by a
user other than `v` leaves the document found for `v`, and all documents
owned by `v`, as they were, whatever the outcome of the call. -/
theorem other_users_untouched (cast : String → Option ObjectId) (campsites : List Campsite)
    (op : Op) (v : UserId) (store : Store) (h : op.user ≠ v) :
    Favorite.findOne v (Op.run cast campsites op store).store = Favorite.findOne v store ∧
    (Op.run cast campsites op store).store.filter (fun d => d.user = v) =
      store.filter (fun d => d.user = v) :=
  (Op.run_effect cast campsites op store).frame h

/-- Witness for C10: user 1 removes a favorite, user 2 is not affected. -/
theorem other_users_untouched_witness :
    (Op.removeSingleFavorite 1 "b").user ≠ 2 ∧
    (Favorite.findOne 2 (Op.run castHex [] (.removeSingleFavorite 1 "b")
        [⟨2, ["x"]⟩, ⟨1, ["b", "c"]⟩]).store = Favorite.findOne 2 [⟨2, ["x"]⟩, ⟨1, ["b", "c"]⟩] ∧
     (Op.run castHex [] (.removeSingleFavorite 1 "b")
        [⟨2, ["x"]⟩, ⟨1, ["b", "c"]⟩]).store.filter (fun d => d.user = 2) =
      [⟨2, ["x"]⟩, ⟨1, ["b", "c"]⟩].filter (fun d => d.user = 2)) :=
  ⟨by decide,
   other_users_untouched castHex [] (.removeSingleFavorite 1 "b") 2
     [⟨2, ["x"]⟩, ⟨1, ["b", "c"]⟩] (by decide)⟩

/-! ## Evaluations of the single-element routes -/

/-- C2, evaluated: user 1 lists `a` and removes `b`, which is not in the list.
The document stored and returned has an empty `campsites` array. -/
theorem removeSingleFavorite_absent_element :
    removeSingleFavorite 1 "b" [⟨1, ["a"]⟩] =
      { store := [⟨1, []⟩],
        sent := some { statusCode := 200, contentType := "application/json",
                       body := .json ⟨1, []⟩ },
        nextErr := false, lookups := [] } := by
  decide

/-- C3, evaluated: a well-formed identifier that the campsite collection does
not hold. The answer is `Invalid campsite ID`, not `Campsite not found`, and
no lookup is made. -/
theorem addSingleFavorite_absent_campsite :
    isValid castHex (some "5f1a2b3c4d5e6f7a8b9c0d1e") = true ∧
    Campsite.findById [] "5f1a2b3c4d5e6f7a8b9c0d1e" = none ∧
    addSingleFavorite castHex [] 1 "5f1a2b3c4d5e6f7a8b9c0d1e" [] =
      { store := [],
        sent := some { statusCode := 404, contentType := "text/plain",
                       body := .text "Invalid campsite ID" },
        nextErr := false, lookups := [] } := by
  decide

/-- C4, evaluated: two calls in a row for an existing campsite. The second
call answers `Invalid campsite ID`, not
`Campsite is already in the list of favorites`. -/
theorem addSingleFavorite_second_call :
    isValid castHex (some "5f1a2b3c4d5e6f7a8b9c0d1e") = true ∧
    Campsite.findById [⟨"5f1a2b3c4d5e6f7a8b9c0d1e"⟩] "5f1a2b3c4d5e6f7a8b9c0d1e" =
      some ⟨"5f1a2b3c4d5e6f7a8b9c0d1e"⟩ ∧
    addSingleFavorite castHex [⟨"5f1a2b3c4d5e6f7a8b9c0d1e"⟩] 1 "5f1a2b3c4d5e6f7a8b9c0d1e"
      (addSingleFavorite castHex [⟨"5f1a2b3c4d5e6f7a8b9c0d1e"⟩] 1
        "5f1a2b3c4d5e6f7a8b9c0d1e" []).store =
      { store := [],
        sent := some { statusCode := 404, contentType := "text/plain",
                       body := .text "Invalid campsite ID" },
        nextErr := false, lookups := [] } := by
  decide

/-- C5, evaluated: user 1 has no document and adds an existing campsite. No
document is created and the answer is `Invalid campsite ID`. -/
theorem addSingleFavorite_existing_campsite :
    isValid castHex (some "5f1a2b3c4d5e6f7a8b9c0d1e") = true ∧
    Campsite.findById [⟨"5f1a2b3c4d5e6f7a8b9c0d1e"⟩] "5f1a2b3c4d5e6f7a8b9c0d1e" =
      some ⟨"5f1a2b3c4d5e6f7a8b9c0d1e"⟩ ∧
    Favorite.findOne 1 (addSingleFavorite castHex [⟨"5f1a2b3c4d5e6f7a8b9c0d1e"⟩] 1
      "5f1a2b3c4d5e6f7a8b9c0d1e" []).store = none ∧
    (addSingleFavorite castHex [⟨"5f1a2b3c4d5e6f7a8b9c0d1e"⟩] 1
      "5f1a2b3c4d5e6f7a8b9c0d1e" []).sent =
      some { statusCode := 404, contentType := "text/plain", body := .text "Invalid campsite ID" } := by
  decide

/-- The promise chain of `POST /:favoriteId` on a request in which `campsiteId`
is bound to a well-formed identifier of no campsite: `Campsite not found` is
sent, the chain goes on with `undefined`, the upsert adds the identifier, and
the third step fails on the response already sent. -/
theorem favoriteId_post_chain_after_not_found :
    favoriteRouter.favoriteId_post castHex []
        ⟨1, [("campsiteId", "5f1a2b3c4d5e6f7a8b9c0d1e")], []⟩ [] =
      { store := [⟨1, ["5f1a2b3c4d5e6f7a8b9c0d1e"]⟩],
        sent := some { statusCode := 404, contentType := "text/plain",
                       body := .text "Campsite not found" },
        nextErr := true, lookups := ["5f1a2b3c4d5e6f7a8b9c0d1e"] } := by
  decide

/-- The posted sequence `a, a, b` for a user without a document: the document
created lists `a` and `b` once each. -/
theorem bulkAddFavorites_repeats :
    bulkAddFavorites castHex 1 ["5f1a2b3c4d5e6f7a8b9c0d1a", "5f1a2b3c4d5e6f7a8b9c0d1a", "5f1a2b3c4d5e6f7a8b9c0d1b"] [] =
      { store := [⟨1, ["5f1a2b3c4d5e6f7a8b9c0d1a", "5f1a2b3c4d5e6f7a8b9c0d1b"]⟩],
        sent := some { statusCode := 200, contentType := "application/json",
                       body := .json ⟨1, ["5f1a2b3c4d5e6f7a8b9c0d1a", "5f1a2b3c4d5e6f7a8b9c0d1b"]⟩ },
        nextErr := false, lookups := [] } := by
  decide

end FavoriteRouter
